import Mathlib

/-!
Verification of the Zybooks solver engine: a shallow embedding of the
scan/filter/route/solve pipeline, the three per-type solvers, and the
randomized delay generator, with theorems settling the specified
properties against the code.

Sources embedded: src/main.py (SolverManager), src/config.py,
src/solvers/question_scanner.py, src/solvers/animation_solver.py,
src/solvers/radio_solver.py, src/solvers/short_answer_solver.py,
src/utils/timing.py.
-/

namespace Zybooks

/-- Python substring test `needle in hay`, modelled on the character lists. -/
def str_contains (hay needle : String) : Bool :=
  decide (List.IsInfix needle.toList hay.toList)

/-- config.py: MAX_RETRIES = 60. -/
def MAX_RETRIES : Nat := 60

/-- The question type tags produced by QuestionScanner.classify_element
(the strings "radio", "animation", "short_answer"). -/
inductive QType
  | radio
  | animation
  | short_answer
deriving DecidableEq, Repr

/-- One scanned question record, as built by QuestionScanner.classify_element:
index in scan order, the type tag, and the completion flag snapshot.
The live WebElement handle and the always-empty details map are not modelled. -/
structure Question where
  index : Nat
  qtype : QType
  completed : Bool
deriving DecidableEq, Repr

/-- The dropdown actions handled by SolverManager.run / filter_questions. -/
inductive Action
  | scanOnly
  | solveRadio
  | solveAnimations
  | solveShortAnswer
  | solveAllOnPage
  | solveAllContinuous
deriving DecidableEq, Repr

/-- main.py filter_questions: the type_map dict mapping dropdown actions to
question type tags; absent keys give Python None, here Option.none. -/
def type_map : Action → Option QType
  | Action.solveRadio => some QType.radio
  | Action.solveAnimations => some QType.animation
  | Action.solveShortAnswer => some QType.short_answer
  | _ => none

/-- main.py filter_questions: the two actions exempt from the type filter. -/
def isSolveAll : Action → Bool
  | Action.solveAllOnPage => true
  | Action.solveAllContinuous => true
  | _ => false

/-- The per-record keep condition of SolverManager.filter_questions: the type
filter applies unless the action is a Solve-All variant (a record whose type
differs from type_map's answer is skipped), then records already completed
are skipped unless force_mode is set. -/
def keepQuestion (action : Action) (force_mode : Bool) (q : Question) : Bool :=
  (isSolveAll action || type_map action == some q.qtype) && (force_mode || !q.completed)

/-- SolverManager.filter_questions (main.py lines 244-278): walks the scanned
records in order, appending those that pass the type and completion filters. -/
def filter_questions (questions : List Question) (action : Action) (force_mode : Bool) :
    List Question :=
  questions.filter (keepQuestion action force_mode)

/-! Delay generator, src/utils/timing.py. The normal sample drawn by
random.gauss is injected as an explicit argument so the clamp is a pure
function of it. Milliseconds are rationals. -/

/-- timing.py bell_curve_delay default for std_dev_ms: mean_ms / 4 when None. -/
def resolve_std_dev (mean_ms : ℚ) (std_dev_ms : Option ℚ) : ℚ :=
  std_dev_ms.getD (mean_ms / 4)

/-- timing.py bell_curve_delay default for min_ms: mean_ms / 2 when None. -/
def resolve_min (mean_ms : ℚ) (min_ms : Option ℚ) : ℚ :=
  min_ms.getD (mean_ms / 2)

/-- timing.py bell_curve_delay default for max_ms: mean_ms * 2 when None. -/
def resolve_max (mean_ms : ℚ) (max_ms : Option ℚ) : ℚ :=
  max_ms.getD (mean_ms * 2)

/-- timing.py bell_curve_delay: resolve defaults, then clamp the gaussian
sample as `max(min_ms, min(max_ms, delay_ms))` and return the delay used.
`gauss` is the value random.gauss produced. The sleep side effect is not
modelled; the returned value is the delay in milliseconds. -/
def bell_curve_delay (mean_ms : ℚ) (std_dev_ms min_ms max_ms : Option ℚ) (gauss : ℚ) : ℚ :=
  let lo := resolve_min mean_ms min_ms
  let hi := resolve_max mean_ms max_ms
  max lo (min hi gauss)

/-- C1: filtering is a pure function of the scan result, action and force
flag: a record is in SolverManager.filter_questions' output iff it is in the
input and its type matches the action's target type (or the action is a
Solve-All variant) and (force mode is on or the record is not completed);
and the output is a sublist of the input, so input order is preserved. -/
theorem filter_questions_spec (qs : List Question) (a : Action) (f : Bool) :
    (∀ q : Question, q ∈ filter_questions qs a f ↔
      q ∈ qs ∧ (isSolveAll a = true ∨ type_map a = some q.qtype) ∧
        (f = true ∨ q.completed = false)) ∧
    (filter_questions qs a f).Sublist qs := by
  constructor
  · intro q
    simp only [filter_questions, List.mem_filter, keepQuestion, Bool.and_eq_true,
      Bool.or_eq_true, beq_iff_eq, Bool.not_eq_true']
  · exact List.filter_sublist qs

/-- C9: with explicit bounds min_ms ≤ max_ms, the delay bell_curve_delay
returns lies in [min_ms, max_ms] for every gaussian sample; and the omitted
optional parameters default to std_dev = mean/4, min = mean/2, max = mean*2. -/
theorem bell_curve_delay_clamped (mean lo hi g : ℚ) (h : lo ≤ hi) :
    (lo ≤ bell_curve_delay mean none (some lo) (some hi) g ∧
      bell_curve_delay mean none (some lo) (some hi) g ≤ hi) ∧
    resolve_std_dev mean none = mean / 4 ∧
    resolve_min mean none = mean / 2 ∧
    resolve_max mean none = mean * 2 := by
  refine ⟨⟨le_max_left _ _, ?_⟩, rfl, rfl, rfl⟩
  exact max_le h (min_le_left _ _)

/-- Closed instance of bell_curve_delay_clamped at mean 1000, bounds 300 and
800, gaussian sample 5000. -/
theorem bell_curve_delay_clamped_witness :
    ((300 : ℚ) ≤ bell_curve_delay 1000 none (some 300) (some 800) 5000 ∧
      bell_curve_delay 1000 none (some 300) (some 800) 5000 ≤ 800) ∧
    resolve_std_dev 1000 none = 1000 / 4 ∧
    resolve_min 1000 none = 1000 / 2 ∧
    resolve_max 1000 none = 1000 * 2 :=
  bell_curve_delay_clamped 1000 300 800 5000 (by norm_num)

/-- C10: when called with min_ms strictly greater than max_ms, the clamp
applies the lower bound after the upper bound, so bell_curve_delay returns
min_ms for every gaussian sample, exceeding the stated maximum. -/
theorem bell_curve_delay_min_wins (mean lo hi g : ℚ) (h : hi < lo) :
    bell_curve_delay mean none (some lo) (some hi) g = lo := by
  simp only [bell_curve_delay, resolve_min, resolve_max, Option.getD_some]
  exact max_eq_left ((min_le_left hi g).trans h.le)

/-- Closed instance of bell_curve_delay_min_wins at min 500 and max 200. -/
theorem bell_curve_delay_min_wins_witness :
    bell_curve_delay 350 none (some 500) (some 200) 10000 = 500 :=
  bell_curve_delay_min_wins 350 500 200 10000 (by norm_num)

/-! Element classifier, src/solvers/question_scanner.py. A candidate element
is modelled by the observations the detection predicates make on it: its
class attribute, its ARIA role, and the outcomes of the scoped descendant
queries each predicate issues. -/

/-- A candidate DOM element as observed by QuestionScanner.classify_element:
the class attribute string, the role attribute, whether a descendant matches
the start-button selector, whether one matches div.animation-controls, and
how many descendants match the radio input selector. -/
structure Element where
  classes : String
  role : Option String
  hasStartButton : Bool
  hasAnimationControls : Bool
  radioInputCount : Nat
deriving DecidableEq, Repr

/-- QuestionScanner.is_animation: true when the class attribute contains
the container wrapper marker, or contains the player marker and the element
has a start-button or animation-controls descendant. -/
def is_animation (e : Element) : Bool :=
  if str_contains e.classes "animation-player-content-resource" then true
  else if str_contains e.classes "animation-player" then
    e.hasStartButton || e.hasAnimationControls
  else false

/-- QuestionScanner.is_short_answer: the class attribute contains the
short-answer-question marker. -/
def is_short_answer (e : Element) : Bool :=
  str_contains e.classes "short-answer-question"

/-- QuestionScanner.is_radio_question: individual option wrappers (classes
containing zb-radio-button or radio-button) are excluded; otherwise the
element must carry the radiogroup role, or the question-choices class, and
in either case contain at least one radio input. -/
def is_radio_question (e : Element) : Bool :=
  if str_contains e.classes "zb-radio-button" || str_contains e.classes "radio-button" then
    false
  else if e.role == some "radiogroup" then
    decide (0 < e.radioInputCount)
  else if str_contains e.classes "question-choices" then
    decide (0 < e.radioInputCount)
  else false

/-- The kind decision of QuestionScanner.classify_element: the detection
rules are tried in the fixed order animation, short answer, radio; the first
match wins, and an element matching none is dropped (Python returns None). -/
def classify_kind (e : Element) : Option QType :=
  if is_animation e then some QType.animation
  else if is_short_answer e then some QType.short_answer
  else if is_radio_question e then some QType.radio
  else none

/-- C3: the classifier assigns at most one kind per element, trying the
rules in the order animation, short answer, radio: each possible output of
classify_kind is characterized by which detection predicates hold, an
element satisfying both the animation rule and the radio rule is classified
animation, and an element matching no rule yields none rather than an error. -/
theorem classify_kind_spec (e : Element) :
    (classify_kind e = some QType.animation ↔ is_animation e = true) ∧
    (classify_kind e = some QType.short_answer ↔
      is_animation e = false ∧ is_short_answer e = true) ∧
    (classify_kind e = some QType.radio ↔
      is_animation e = false ∧ is_short_answer e = false ∧ is_radio_question e = true) ∧
    (classify_kind e = none ↔
      is_animation e = false ∧ is_short_answer e = false ∧ is_radio_question e = false) ∧
    (is_animation e = true → is_radio_question e = true →
      classify_kind e = some QType.animation) := by
  cases ha : is_animation e <;> cases hs : is_short_answer e <;>
    cases hr : is_radio_question e <;> simp [classify_kind, ha, hs, hr]

/-- Closed instance of classify_kind_spec on an element whose class
attribute satisfies both the animation player rule and the radio
question-choices rule: it is classified animation. -/
theorem classify_kind_spec_witness :
    classify_kind
      (Element.mk "interactive-activity-container animation-player question-choices"
        (some "radiogroup") true false 3) = some QType.animation :=
  (classify_kind_spec _).2.2.2.2 (by decide) (by decide)

/-! Animation solver, src/solvers/animation_solver.py. -/

/-- A chevron indicator as AnimationSolver.is_complete observes it: its
class attribute and its aria-label attribute (both read with a fallback of
the empty string when the attribute is absent). -/
structure Chevron where
  classes : String
  ariaLabel : String
deriving DecidableEq, Repr

/-- The strict per-chevron conjunction of AnimationSolver.is_complete:
the class attribute contains "filled" and the aria-label contains
"Activity completed". -/
def chevron_complete (c : Chevron) : Bool :=
  str_contains c.classes "filled" && str_contains c.ariaLabel "Activity completed"

/-- What one level of the ancestor walk sees: the first chevron the scoped
selector query finds at that node, or none when the query finds nothing. -/
def chevron_at (oc : Option Chevron) : Bool :=
  match oc with
  | some c => chevron_complete c
  | none => false

/-- AnimationSolver.is_complete: starting at the animation element, walk at
most five nodes up the ancestor chain (the element itself and up to four
parents; the chain may end earlier when a node has no parent); at each node
query for a chevron and return true as soon as one satisfies the strict
conjunction; otherwise false. `chain` lists, per node from the element
upward, the chevron found there. -/
def is_complete (chain : List (Option Chevron)) : Bool :=
  (chain.take 5).any chevron_at

/-- AnimationSolver.play_until_complete loop body: while fewer than
max_attempts cycles have run, check the stop flag, count the cycle, wait,
try once to activate the play control, wait, then evaluate is_complete on
the DOM as observed at that cycle. Returns (cycles run, completed flag).
`fuel` is the number of cycles still allowed (max_attempts minus the count),
`attempt` the cycles already run; `observe t` is the ancestor-chain view the
completion check sees at cycle t. -/
def play_loop (stop : Bool) (observe : Nat → List (Option Chevron)) :
    Nat → Nat → Nat × Bool
  | 0, attempt => (attempt, false)
  | fuel + 1, attempt =>
    if stop then (attempt, false)
    else if is_complete (observe (attempt + 1)) then (attempt + 1, true)
    else play_loop stop observe fuel (attempt + 1)

/-- AnimationSolver.play_until_complete: run the play cycle loop with the
config cap MAX_RETRIES and no cycles yet run. -/
def play_until_complete (stop : Bool) (observe : Nat → List (Option Chevron)) :
    Nat × Bool :=
  play_loop stop observe MAX_RETRIES 0

lemma play_loop_fst_le (stop : Bool) (observe : Nat → List (Option Chevron)) :
    ∀ fuel attempt, (play_loop stop observe fuel attempt).1 ≤ attempt + fuel := by
  intro fuel
  induction fuel with
  | zero => intro attempt; simp [play_loop]
  | succ n ih =>
    intro attempt
    simp only [play_loop]
    split
    · omega
    · split
      · omega
      · have := ih (attempt + 1)
        omega

lemma play_loop_never (observe : Nat → List (Option Chevron))
    (h : ∀ t, is_complete (observe t) = false) :
    ∀ fuel attempt, play_loop false observe fuel attempt = (attempt + fuel, false) := by
  intro fuel
  induction fuel with
  | zero => intro attempt; simp [play_loop]
  | succ n ih =>
    intro attempt
    simp only [play_loop, h (attempt + 1), Bool.false_eq_true, if_false]
    rw [ih (attempt + 1)]
    congr 1
    omega

lemma play_loop_stopped (observe : Nat → List (Option Chevron)) :
    ∀ fuel attempt, play_loop true observe fuel attempt = (attempt, false) := by
  intro fuel
  cases fuel <;> simp [play_loop]

/-- C2: the animation completion check returns true exactly when some
chevron found within the first five nodes of the ancestor chain has both the
"filled" class marker and an aria-label containing "Activity completed";
and when every chevron in the chain misses at least one of the two signals,
the check is false, so the play loop runs to the attempt cap and reports the
record as failed. -/
theorem is_complete_strict (chain : List (Option Chevron)) :
    (is_complete chain = true ↔
      ∃ c : Chevron, some c ∈ chain.take 5 ∧
        str_contains c.classes "filled" = true ∧
        str_contains c.ariaLabel "Activity completed" = true) ∧
    ((∀ c : Chevron, some c ∈ chain →
        ¬(str_contains c.classes "filled" = true ∧
          str_contains c.ariaLabel "Activity completed" = true)) →
      play_until_complete false (fun _ => chain) = (MAX_RETRIES, false)) := by
  have hiff : is_complete chain = true ↔
      ∃ c : Chevron, some c ∈ chain.take 5 ∧
        str_contains c.classes "filled" = true ∧
        str_contains c.ariaLabel "Activity completed" = true := by
    simp only [is_complete, List.any_eq_true]
    constructor
    · rintro ⟨oc, hmem, hok⟩
      cases oc with
      | none => simp [chevron_at] at hok
      | some c =>
        refine ⟨c, hmem, ?_⟩
        simpa [chevron_at, chevron_complete, Bool.and_eq_true] using hok
    · rintro ⟨c, hmem, h1, h2⟩
      exact ⟨some c, hmem, by simp [chevron_at, chevron_complete, h1, h2]⟩
  refine ⟨hiff, fun h => ?_⟩
  have hfalse : is_complete chain = false := by
    rw [Bool.eq_false_iff]
    intro hc
    obtain ⟨c, hmem, h1, h2⟩ := hiff.mp hc
    exact h c (List.mem_of_mem_take hmem) ⟨h1, h2⟩
  unfold play_until_complete
  rw [play_loop_never (fun _ => chain) (fun _ => hfalse) MAX_RETRIES 0]
  simp

/-- Closed instance of is_complete_strict on a chain whose first node has a
chevron with the "filled" marker but the wrong label and whose second node
has a chevron with the completion label but no "filled" marker: the play
loop exhausts all 60 cycles and fails. -/
theorem is_complete_strict_witness :
    play_until_complete false
      (fun _ => [some (Chevron.mk "zb-chevron title-bar-chevron filled" "Activity"),
        some (Chevron.mk "zb-chevron title-bar-chevron" "Activity completed")]) =
      (MAX_RETRIES, false) := by
  apply (is_complete_strict _).2
  intro c hc
  simp only [List.mem_cons, List.not_mem_nil, or_false, Option.some.injEq] at hc
  rcases hc with h | h <;> subst h <;> decide

/-- C6: the animation play-cycle loop executes at most MAX_RETRIES = 60
cycles for any stop flag and any sequence of observations, and when the
strict completion predicate never holds the loop ends after exactly 60
cycles reporting failure. -/
theorem play_cycle_cap (stop : Bool) (observe : Nat → List (Option Chevron)) :
    (play_until_complete stop observe).1 ≤ MAX_RETRIES ∧
    MAX_RETRIES = 60 ∧
    ((∀ t, is_complete (observe t) = false) →
      play_until_complete false observe = (MAX_RETRIES, false)) := by
  refine ⟨?_, rfl, fun h => ?_⟩
  · have := play_loop_fst_le stop observe MAX_RETRIES 0
    simpa [play_until_complete] using this
  · unfold play_until_complete
    rw [play_loop_never observe h MAX_RETRIES 0]
    simp

/-- Closed instance of play_cycle_cap on the observation sequence that never
finds any chevron: 60 cycles, then failure. -/
theorem play_cycle_cap_witness :
    (play_until_complete true (fun _ => [])).1 ≤ MAX_RETRIES ∧
    play_until_complete false (fun _ => []) = (MAX_RETRIES, false) :=
  ⟨(play_cycle_cap true (fun _ => [])).1,
    (play_cycle_cap false (fun _ => [])).2.2 (fun _ => rfl)⟩

/-! Radio question solver, src/solvers/radio_solver.py. -/

/-- An element interaction performed by a solver or the orchestrator:
activating radio option i, the double-activated short answer reveal control,
the answer extraction that follows it, typing into the answer field,
activating the check button, and activating the next-section link. -/
inductive Event
  | clickRadio (idx : Nat)
  | clickReveal
  | extract
  | typeAnswer
  | clickCheck
  | navNext
deriving DecidableEq, Repr

/-- RadioQuestionSolver.solve_question option loop: for each radio input in
DOM order, check the stop flag, activate the option, then poll for feedback;
a new correct message returns success immediately, otherwise the next option
is tried; running past the last option returns failure. `idx` is the DOM
position of the first remaining option; `opts` gives, per remaining option,
whether check_feedback reported a new correct message for it. Returns the
activation trace and the solved flag. -/
def radio_try_options (stop : Bool) : Nat → List Bool → List Event × Bool
  | _, [] => ([], false)
  | idx, o :: rest =>
    if stop then ([], false)
    else if o then ([Event.clickRadio idx], true)
    else
      let r := radio_try_options stop (idx + 1) rest
      (Event.clickRadio idx :: r.1, r.2)

lemma radio_try_options_trace (opts : List Bool) :
    ∀ idx, (radio_try_options false idx opts).1 =
      (List.range' idx (radio_try_options false idx opts).1.length).map Event.clickRadio := by
  induction opts with
  | nil => intro idx; simp [radio_try_options]
  | cons o rest ih =>
    intro idx
    cases o
    · simp only [radio_try_options, Bool.false_eq_true, if_false, List.length_cons,
        List.range', List.map_cons, List.cons.injEq, true_and]
      exact ih (idx + 1)
    · simp [radio_try_options, List.range']

lemma radio_try_options_len (opts : List Bool) :
    ∀ idx, (radio_try_options false idx opts).1.length ≤ opts.length := by
  induction opts with
  | nil => intro idx; simp [radio_try_options]
  | cons o rest ih =>
    intro idx
    cases o <;> simp [radio_try_options]
    exact ih (idx + 1)

lemma radio_try_options_exhausted (opts : List Bool) :
    ∀ idx, (radio_try_options false idx opts).2 = false →
      (radio_try_options false idx opts).1.length = opts.length := by
  induction opts with
  | nil => intro idx _; simp [radio_try_options]
  | cons o rest ih =>
    intro idx h
    cases ho : o
    · simp only [radio_try_options, ho, Bool.false_eq_true, if_false] at h ⊢
      simp only [List.length_cons]
      rw [ih (idx + 1) h]
    · simp [radio_try_options, ho] at h

lemma radio_try_options_any (opts : List Bool) :
    ∀ idx, (radio_try_options false idx opts).2 = opts.any (fun b => b) := by
  induction opts with
  | nil => intro idx; simp [radio_try_options]
  | cons o rest ih =>
    intro idx
    cases o
    · simpa [radio_try_options] using ih (idx + 1)
    · simp [radio_try_options]

/-- C4: the radio option loop performs at most one activation per option,
in DOM order starting at option 0; it reports success exactly when some
option produced a new correct feedback message, and when it reports failure
it has activated every option (exhaustion after the last one). Termination
is structural: the trace is always finite with length at most the option
count. -/
theorem radio_solver_termination (opts : List Bool) :
    (radio_try_options false 0 opts).1.length ≤ opts.length ∧
    (radio_try_options false 0 opts).1 =
      (List.range (radio_try_options false 0 opts).1.length).map Event.clickRadio ∧
    (radio_try_options false 0 opts).2 = opts.any (fun b => b) ∧
    ((radio_try_options false 0 opts).2 = false →
      (radio_try_options false 0 opts).1.length = opts.length) := by
  refine ⟨radio_try_options_len opts 0, ?_,
    radio_try_options_any opts 0, radio_try_options_exhausted opts 0⟩
  rw [List.range_eq_range']
  exact radio_try_options_trace opts 0

/-- Closed instance of radio_solver_termination on a three-option record
whose options all fail: three activations in DOM order, then exhaustion. -/
theorem radio_solver_termination_witness :
    (radio_try_options false 0 [false, false, false]).1.length ≤ 3 ∧
    (radio_try_options false 0 [false, false, false]).1.length = 3 :=
  ⟨(radio_solver_termination [false, false, false]).1,
    (radio_solver_termination [false, false, false]).2.2.2 (by decide)⟩

/-- radio_solver.py check_feedback: max_wait = 2.0 seconds, modelled in
tenths of a second. -/
def max_wait_tenths : Nat := 20

/-- radio_solver.py check_feedback: check_interval = 0.1 seconds, in tenths
of a second. -/
def check_interval_tenths : Nat := 1

/-- What one poll iteration of check_feedback observes on the page: a
correct-feedback element with a message text not in the old-messages
snapshot, an incorrect one, or no new message at all. -/
inductive Seen
  | newCorrect
  | newIncorrect
  | nothing
deriving DecidableEq, Repr

/-- RadioQuestionSolver.check_feedback poll loop: while the wait counter is
below max_wait, check the stop flag, look for a new correct message (return
true), then for a new incorrect one (return false); otherwise delay and add
0.1 plus check_interval to the wait counter — two increments per iteration.
Time is in tenths of a second; `observe t` is what poll iteration t sees.
Returns (number of poll iterations run, result). -/
def check_feedback_go (stop : Bool) (observe : Nat → Seen) (wait iter : Nat) :
    Nat × Bool :=
  if h : wait < max_wait_tenths then
    if stop then (iter, false)
    else
      match observe iter with
      | Seen.newCorrect => (iter + 1, true)
      | Seen.newIncorrect => (iter + 1, false)
      | Seen.nothing =>
          check_feedback_go stop observe (wait + 1 + check_interval_tenths) (iter + 1)
  else (iter, false)
termination_by max_wait_tenths - wait
decreasing_by simp only [check_interval_tenths]; omega

/-- RadioQuestionSolver.check_feedback: the poll loop started with a zero
wait counter. -/
def check_feedback (stop : Bool) (observe : Nat → Seen) : Nat × Bool :=
  check_feedback_go stop observe 0 0

lemma check_feedback_go_le (stop : Bool) (observe : Nat → Seen) :
    ∀ n wait iter, max_wait_tenths - wait ≤ n →
      (check_feedback_go stop observe wait iter).1 ≤
        iter + (max_wait_tenths - wait + 1) / 2 := by
  intro n
  induction n with
  | zero =>
    intro wait iter h
    have hw : ¬wait < max_wait_tenths := by omega
    rw [check_feedback_go, dif_neg hw]
    omega
  | succ m ih =>
    intro wait iter h
    by_cases hw : wait < max_wait_tenths
    · rw [check_feedback_go, dif_pos hw]
      cases stop
      · simp only [Bool.false_eq_true, if_false]
        cases hobs : observe iter
        · simp only [check_interval_tenths] at *
          omega
        · simp only [check_interval_tenths] at *
          omega
        · have := ih (wait + 1 + check_interval_tenths) (iter + 1)
            (by simp only [check_interval_tenths]; omega)
          simp only [check_interval_tenths] at this ⊢
          omega
      · simp only [if_true]
        omega
    · rw [check_feedback_go, dif_neg hw]
      omega

lemma check_feedback_go_timeout (observe : Nat → Seen)
    (hobs : ∀ t, observe t = Seen.nothing) :
    ∀ n wait iter, max_wait_tenths - wait ≤ n →
      check_feedback_go false observe wait iter =
        (iter + (max_wait_tenths - wait + 1) / 2, false) := by
  intro n
  induction n with
  | zero =>
    intro wait iter h
    have hw : ¬wait < max_wait_tenths := by omega
    rw [check_feedback_go, dif_neg hw]
    have : (max_wait_tenths - wait + 1) / 2 = 0 := by omega
    rw [this]
    simp
  | succ m ih =>
    intro wait iter h
    by_cases hw : wait < max_wait_tenths
    · rw [check_feedback_go, dif_pos hw]
      simp only [Bool.false_eq_true, if_false, hobs iter]
      rw [ih (wait + 1 + check_interval_tenths) (iter + 1)
        (by simp only [check_interval_tenths]; omega)]
      simp only [check_interval_tenths, max_wait_tenths] at *
      congr 1
      omega
    · rw [check_feedback_go, dif_neg hw]
      have : (max_wait_tenths - wait + 1) / 2 = 0 := by omega
      rw [this]
      simp

/-- C7: each iteration of the feedback poll loop raises the wait counter by
0.1 plus the check interval, i.e. double the check interval; against the
2.0-second budget the loop body therefore runs at most 10 times (exactly 10
when no new feedback ever appears), which is half the 20 checks the
2-second budget at a 100 ms interval would otherwise allow. -/
theorem check_feedback_budget (stop : Bool) (observe : Nat → Seen) :
    1 + check_interval_tenths = 2 * check_interval_tenths ∧
    (check_feedback stop observe).1 ≤ 10 ∧
    (check_feedback false (fun _ => Seen.nothing)).1 = 10 ∧
    10 = max_wait_tenths / check_interval_tenths / 2 := by
    refine ⟨rfl, ?_, ?_, rfl⟩
    · have := check_feedback_go_le stop observe max_wait_tenths 0 0 (by omega)
      simpa [check_feedback, max_wait_tenths] using this
    · rw [check_feedback,
        check_feedback_go_timeout (fun _ => Seen.nothing) (fun _ => rfl)
          max_wait_tenths 0 0 (by omega)]
      norm_num [max_wait_tenths]

/-! Short answer solver, src/solvers/short_answer_solver.py. -/

/-- ShortAnswerSolver.verify_completion poll loop: while the wait counter is
below max_wait (2.0 s), check the stop flag, then look up to three ancestor
levels for a chevron whose class attribute contains "filled"; otherwise
delay and add check_interval (0.1 s) to the counter. Time in tenths of a
second; `observe t` is whether poll iteration t finds a filled chevron.
Returns (number of poll iterations run, completion found). -/
def verify_completion_go (stop : Bool) (observe : Nat → Bool) (wait iter : Nat) :
    Nat × Bool :=
  if h : wait < max_wait_tenths then
    if stop then (iter, false)
    else if observe iter then (iter + 1, true)
    else verify_completion_go stop observe (wait + check_interval_tenths) (iter + 1)
  else (iter, false)
termination_by max_wait_tenths - wait
decreasing_by simp only [check_interval_tenths]; omega

/-- A short answer question as ShortAnswerSolver.solve_question observes it:
whether each of the reveal control, the input field and the check button was
found, the answer text the forfeit-answer element yields after the double
reveal (none when empty or absent), and the per-iteration completion poll
observations. -/
structure ShortAnswerPage where
  hasShowAnswerBtn : Bool
  hasInputField : Bool
  hasCheckBtn : Bool
  revealedAnswer : Option String
  completes : Nat → Bool

/-- ShortAnswerSolver.solve_question: abandon the record when any of the
three controls is missing (no interaction); otherwise activate the reveal
control twice (reveal_answer), extract the revealed answer text (fail when
none), type it into the field, activate the check button, and poll for a
filled chevron. Returns the success flag and the interaction trace. -/
def short_answer_solve (stop : Bool) (p : ShortAnswerPage) : Bool × List Event :=
  if !(p.hasShowAnswerBtn && p.hasInputField && p.hasCheckBtn) then (false, [])
  else
    match p.revealedAnswer with
    | none => (false, [Event.clickReveal, Event.clickReveal, Event.extract])
    | some _ =>
      ((verify_completion_go stop p.completes 0 0).2,
        [Event.clickReveal, Event.clickReveal, Event.extract,
          Event.typeAnswer, Event.clickCheck])

/-- C5: when all three of the reveal control, input field and check button
are found, the solver's trace starts with exactly two reveal activations
followed immediately by the answer extraction, and contains exactly two
reveal activations in total — never one, never three. -/
theorem reveal_exactly_twice (stop : Bool) (p : ShortAnswerPage)
    (h1 : p.hasShowAnswerBtn = true) (h2 : p.hasInputField = true)
    (h3 : p.hasCheckBtn = true) :
    (∃ rest, (short_answer_solve stop p).2 =
      Event.clickReveal :: Event.clickReveal :: Event.extract :: rest) ∧
    (short_answer_solve stop p).2.count Event.clickReveal = 2 := by
  unfold short_answer_solve
  rw [h1, h2, h3]
  simp only [Bool.and_self, Bool.not_true, Bool.false_eq_true, if_false]
  cases p.revealedAnswer with
  | none => exact ⟨⟨[], rfl⟩, rfl⟩
  | some a => exact ⟨⟨[Event.typeAnswer, Event.clickCheck], rfl⟩, rfl⟩

/-- Closed instance of reveal_exactly_twice on a record with all three
controls present and a revealed answer of "42". -/
theorem reveal_exactly_twice_witness :
    (∃ rest, (short_answer_solve false
        (ShortAnswerPage.mk true true true (some "42") (fun _ => true))).2 =
      Event.clickReveal :: Event.clickReveal :: Event.extract :: rest) ∧
    (short_answer_solve false
        (ShortAnswerPage.mk true true true (some "42") (fun _ => true))).2.count
      Event.clickReveal = 2 :=
  reveal_exactly_twice false
    (ShortAnswerPage.mk true true true (some "42") (fun _ => true)) rfl rfl rfl

/-! Orchestrator and cancellation, src/main.py and src/solvers/base_solver.py. -/

/-- The per-record loop shared verbatim by the three solvers'
solve_questions methods (radio_solver.py, animation_solver.py,
short_answer_solver.py): for each record, check the stop flag at loop entry
and return on it, otherwise solve the record and count a success. Returns
(solved count, interaction trace). `solveOne` is the per-record solver. -/
def solve_records (stop : Bool) (solveOne : α → Bool × List Event) :
    List α → Nat × List Event
  | [] => (0, [])
  | q :: rest =>
    if stop then (0, [])
    else
      let r := solveOne q
      let s := solve_records stop solveOne rest
      ((if r.1 then 1 else 0) + s.1, r.2 ++ s.2)

/-- SolverManager.run_continuous page loop (main.py lines 126-194): while
the stop event is not set, scan and solve the current page, then look for
the next-section link; when found, activate it (an interaction) and
continue, otherwise end. `solvePage n` is the interaction trace solving page
n produces; `hasNext n` is whether a next-section link exists after page n;
fuel bounds the recursion (the source loop is unbounded; every finite run is
captured by a large enough fuel). Returns (pages processed, trace). -/
def run_continuous_go (stop : Bool) (solvePage : Nat → List Event)
    (hasNext : Nat → Bool) : Nat → Nat → Nat × List Event
  | 0, n => (n, [])
  | fuel + 1, n =>
    if stop then (n, [])
    else
      let tr := solvePage n
      if hasNext (n + 1) then
        let r := run_continuous_go stop solvePage hasNext fuel (n + 1)
        (r.1, tr ++ Event.navNext :: r.2)
      else (n + 1, tr)

/-- SolverManager.run: its first statement is stop_event.clear(), so the
flag the pipeline sees at run entry is false whatever its previous value;
nothing else in the codebase clears the flag. -/
def run_entry_stop_flag (_previous : Bool) : Bool := false

/-- C8: with the cancellation flag set, every modelled loop exits at its
loop-entry check with no element interaction performed: the animation
play-cycle loop runs zero cycles, the choice solver's per-option loop
produces an empty activation trace, the feedback poll and the short answer
completion poll run zero iterations, the shared per-record loop of every
solver returns an empty trace, and the orchestrator's continuous page loop
processes no further page; and the flag is cleared (only) at the start of
the next run. -/
theorem cancellation_spec :
    (∀ observe : Nat → List (Option Chevron),
      play_until_complete true observe = (0, false)) ∧
    (∀ (idx : Nat) (opts : List Bool), radio_try_options true idx opts = ([], false)) ∧
    (∀ observe : Nat → Seen, check_feedback true observe = (0, false)) ∧
    (∀ observe : Nat → Bool, verify_completion_go true observe 0 0 = (0, false)) ∧
    (∀ (solveOne : Question → Bool × List Event) (records : List Question),
      solve_records true solveOne records = (0, [])) ∧
    (∀ (solvePage : Nat → List Event) (hasNext : Nat → Bool) (fuel pages : Nat),
      run_continuous_go true solvePage hasNext fuel pages = (pages, [])) ∧
    (∀ previous : Bool, run_entry_stop_flag previous = false) := by
  refine ⟨?_, ?_, ?_, ?_, ?_, ?_, fun _ => rfl⟩
  · intro observe
    exact play_loop_stopped observe MAX_RETRIES 0
  · intro idx opts
    cases opts <;> simp [radio_try_options]
  · intro observe
    rw [check_feedback, check_feedback_go]
    simp [max_wait_tenths]
  · intro observe
    rw [verify_completion_go]
    simp [max_wait_tenths]
  · intro solveOne records
    cases records <;> simp [solve_records]
  · intro solvePage hasNext fuel pages
    cases fuel <;> simp [run_continuous_go]

end Zybooks
